import Mathlib

/-!
Verification of the task-orchestration core of the mac-vision-agent
repository (`langgraph_core/`): a shallow embedding in Lean 4 of the
LangGraph state (`state.py`), the six node functions
(`nodes/analyzer.py`, `nodes/screen.py`, `nodes/executor.py`,
`nodes/validator.py`) and the conditional-edge functions (`edges.py`),
together with theorems about target-element selection, the retry bound,
state invariants, completion and recovery behaviour.

Modelling conventions:
* Python dictionaries holding the agent state (`VisionAgentState`) become a
  structure `AgentState`; node functions return a partial update
  (`Delta`, mirroring the dict each node returns) which is merged into the
  state by `mergeState`, as LangGraph does (every field of the state uses
  plain replacement; no field has a reducer).
* Machine floats (`confidence`) are modelled as rationals.
* External collaborators (screen capture, VLM image analysis, the
  GUI action service) are modelled as abstract outcomes supplied per step
  (`Oracle`); an operation that can raise a Python exception is an
  `Except String` value whose `error` carries the exception text.
* Fields that are written but never read by any node or edge
  (`messages`, timestamps, the non-strategy entries of `debug_info`,
  `session_id`, payload data of results) are omitted; of `debug_info`
  only the `retry_{n}_strategy` entries are kept, because they are the
  only entries control flow ever reads
  (`should_continue_after_error_handling`).
-/

/-! ## String helpers (Python `in`, `str.lower`)

`pyIn needle hay` models the Python expression `needle in hay` on strings;
`strLower` models `str.lower` character-wise (sufficient here: the strings
involved are ASCII and CJK, on which Python's and Lean's per-character
lowering agree). -/

/-- Test `listPre n h` : the list `n` is a prefix of the list `h` (Boolean). -/
def listPre : List Char → List Char → Bool
  | [], _ => true
  | _ :: _, [] => false
  | a :: as, b :: bs => a == b && listPre as bs

/-- Test `listContains n h` : the list `n` occurs contiguously inside `h`
(Python `n in h` on strings, via their character lists). -/
def listContains (n : List Char) : List Char → Bool
  | [] => listPre n []
  | c :: t => listPre n (c :: t) || listContains n t

/-- Python `needle in hay` on strings. -/
def pyIn (needle hay : String) : Bool :=
  listContains needle.data hay.data

/-- Character-wise `str.lower`. -/
def strLower (s : String) : String :=
  ⟨s.data.map Char.toLower⟩

/-! ## Data model (`state.py`) -/

/-- An observed UI element (`UIElement` TypedDict).  The `coordinates`
dictionary may lack keys (the VLM output is arbitrary), so its four entries
are optional; `text` is `Optional[str]`; `confidence` is a float, modelled
as a rational.  `attributes` and `accessibility_info` are never read and
are omitted. -/
structure UIElement where
  elementId : String
  elementType : String
  coordX : Option Int := none
  coordY : Option Int := none
  coordW : Option Int := none
  coordH : Option Int := none
  text : Option String := none
  confidence : ℚ
deriving DecidableEq, Repr

/-- Parameters of a plan step (`parameters` dict): only the keys the
executor reads, each optional with its use-site default. -/
structure StepParams where
  text : Option String := none
  direction : Option String := none
  amount : Option Nat := none
  appName : Option String := none
deriving DecidableEq, Repr

/-- A plan step (`ExecutionStep` TypedDict).  `target` is
`Optional[Dict]`; when present, the plan builder always stores a
`description` key, so the dictionary is modelled by its description
string.  `description`/`expected_result` are never read by control flow
and are omitted. -/
structure ExecutionStep where
  stepId : Nat
  actionType : String
  target : Option String := none
  parameters : StepParams := {}
deriving DecidableEq, Repr

/-- Result of one executor invocation (`ExecutionResult` TypedDict);
`result_data`, `execution_time` and `screenshot_after` are never read by
control flow and are omitted. -/
structure ExecutionResult where
  stepId : Nat
  success : Bool
  errorMessage : Option String := none
deriving DecidableEq, Repr

/-- The structured value recovered from the VLM's screen-analysis reply
(`_parse_screen_analysis` output).  The reply is arbitrary JSON, so every
key the program later reads is optional: `screenshot_path` and
`target_elements` are read by the edge functions directly from this
dictionary, and `ui_elements` feeds `_extract_ui_elements` (which is
folded into this abstract value: its per-element defaulting concerns only
fields our claims quantify over anyway). -/
structure ScreenAnalysis where
  screenshotPath : Option String := none
  targetElementsKey : Option (List UIElement) := none
  uiElements : List UIElement := []
deriving DecidableEq, Repr

/-- Recovery strategy chosen by `_analyze_error_and_get_strategy`
(the `type` key of the strategy dict; `description`/`reason` are only
echoed into messages). -/
inductive Strategy where
  | reanalyzeScreen
  | retryCurrentStep
  | modifyPlan
deriving DecidableEq, Repr

/-- The agent state (`VisionAgentState` TypedDict), restricted to the
fields read by some node or edge. -/
structure AgentState where
  userCommand : String
  taskType : Option String := none
  taskIntent : Option String := none
  screenshotPath : Option String := none
  screenAnalysis : Option ScreenAnalysis := none
  uiElements : Option (List UIElement) := none
  targetElements : Option (List UIElement) := none
  executionPlan : Option (List ExecutionStep) := none
  currentStep : Nat := 0
  executionResults : List ExecutionResult := []
  retryCount : Nat := 0
  maxRetries : Nat := 3
  isCompleted : Bool := false
  isSuccess : Bool := false
  errorMessage : Option String := none
  needReanalyze : Bool := false
  debugInfo : List (String × Strategy) := []
deriving DecidableEq, Repr

/-- Embedding of `create_initial_state` (`state.py`). -/
def createInitialState (userCommand : String) (maxRetries : Nat := 3) :
    AgentState :=
  { userCommand := userCommand, maxRetries := maxRetries }

/-- A partial state update, as returned by every node: `none` means the
key is absent from the returned dict.  For `error_message` the stored
value is itself optional, because nodes explicitly store `None` there to
clear it. -/
structure Delta where
  taskType : Option String := none
  taskIntent : Option String := none
  screenshotPath : Option String := none
  screenAnalysis : Option ScreenAnalysis := none
  uiElements : Option (List UIElement) := none
  targetElements : Option (List UIElement) := none
  executionPlan : Option (List ExecutionStep) := none
  currentStep : Option Nat := none
  executionResults : Option (List ExecutionResult) := none
  retryCount : Option Nat := none
  isCompleted : Option Bool := none
  isSuccess : Option Bool := none
  errorMessage : Option (Option String) := none
  needReanalyze : Option Bool := none
  debugInfo : Option (List (String × Strategy)) := none
deriving DecidableEq, Repr

/-- LangGraph's merge of a node's returned dict into the state: plain
per-key replacement (no state field declares a reducer). -/
def mergeState (s : AgentState) (d : Delta) : AgentState :=
  { userCommand := s.userCommand
    taskType := (d.taskType.map some).getD s.taskType
    taskIntent := (d.taskIntent.map some).getD s.taskIntent
    screenshotPath := (d.screenshotPath.map some).getD s.screenshotPath
    screenAnalysis := (d.screenAnalysis.map some).getD s.screenAnalysis
    uiElements := (d.uiElements.map some).getD s.uiElements
    targetElements := (d.targetElements.map some).getD s.targetElements
    executionPlan := (d.executionPlan.map some).getD s.executionPlan
    currentStep := d.currentStep.getD s.currentStep
    executionResults := d.executionResults.getD s.executionResults
    retryCount := d.retryCount.getD s.retryCount
    isCompleted := d.isCompleted.getD s.isCompleted
    isSuccess := d.isSuccess.getD s.isSuccess
    errorMessage := d.errorMessage.getD s.errorMessage
    needReanalyze := d.needReanalyze.getD s.needReanalyze
    debugInfo := d.debugInfo.getD s.debugInfo
    maxRetries := s.maxRetries }

/-- Python truthiness of `state.get('error_message')`: `None` and the
empty string are falsy. -/
def truthyErr : Option String → Bool
  | none => false
  | some m => !(m == "")

/-! ## Target-element selection (`screen.py`, `_identify_target_elements`)

The source iterates over the elements in order, marks an element as a
target when its kind fits the current step's `action_type` **or** when the
step's target description occurs (case-insensitively) in the element's
text, keeps it only when its confidence exceeds 0.7, and finally sorts the
collected list by confidence, descending (`list.sort` with `reverse=True`
is stable, so ties keep their original order).

When the current step's `target` field is Python `None`, the expression
`current_step_info.get('target', {}).get('description', '')` raises
`AttributeError`; the function therefore returns `Except`, the error case
propagating to `screen_analyzer_node`'s handler. -/

/-- Placeholder step for the (guarded) index accesses `plan[current_step]`. -/
def defaultStep : ExecutionStep := { stepId := 0, actionType := "analyze" }

/-- Per-element test of the selection loop body. -/
def isTargetElem (actionType : String) (targetDescription : String)
    (e : UIElement) : Bool :=
  let kindOk :=
    (actionType == "click"
      && (e.elementType == "button" || e.elementType == "link"
          || e.elementType == "menu_item"))
    || (actionType == "type"
      && (e.elementType == "input" || e.elementType == "textarea"
          || e.elementType == "textfield"))
  let textOk :=
    !(targetDescription == "")
      && (match e.text with
          | none => false
          | some t =>
            !(t == "") && pyIn (strLower targetDescription) (strLower t))
  (kindOk || textOk) && decide (mkRat 7 10 < e.confidence)

/-- Stable insertion into a list sorted by descending confidence: an
element is placed before the first strictly-less-confident element,
i.e. after every earlier element of equal confidence. -/
def insertDesc (e : UIElement) : List UIElement → List UIElement
  | [] => [e]
  | x :: xs =>
    if x.confidence ≤ e.confidence then e :: x :: xs
    else x :: insertDesc e xs

/-- Stable sort by descending confidence
(`target_elements.sort(key=lambda x: x['confidence'], reverse=True)`). -/
def sortDesc : List UIElement → List UIElement
  | [] => []
  | x :: xs => insertDesc x (sortDesc xs)

/-- Embedding of `_identify_target_elements` (`screen.py`), as a function of the
element list and the state fields it reads. -/
def identifyTargetElements (uiElements : List UIElement)
    (executionPlan : Option (List ExecutionStep)) (currentStep : Nat) :
    Except String (List UIElement) :=
  match executionPlan with
  | none => Except.ok []
  | some plan =>
    if plan.length = 0 ∨ plan.length ≤ currentStep then Except.ok []
    else
      match (plan.getD currentStep defaultStep).target with
      | none => Except.error ("NoneType object has no attribute get")
      | some targetDescription =>
        Except.ok (sortDesc (uiElements.filter
          (isTargetElem (plan.getD currentStep defaultStep).actionType
            targetDescription)))

/-- Descending order by confidence, as a pairwise relation. -/
def ConfSortedDesc (l : List UIElement) : Prop :=
  l.Pairwise (fun a b => b.confidence ≤ a.confidence)

/-! ## Intent analysis (`analyzer.py`)

`command_analyzer_node` never calls the VLM for the analysis: it builds a
fixed template string and feeds it to `_parse_analysis_result`, which
extracts the first `...` / last `...` brace-delimited JSON from the text
and otherwise falls back to a default dictionary with
`task_type="analyze"`.  The JSON extraction is folded into an abstract
per-invocation outcome (`TaskInfo`, an `Oracle` field): every possible
parsed dictionary is admitted, which over-approximates the reachable
behaviour.  A key missing from the parsed JSON is a `none` field. -/

/-- The dictionary produced by `_parse_analysis_result`: the keys
`_create_execution_plan` and `command_analyzer_node` read, each possibly
absent. -/
structure TaskInfo where
  taskType : Option String := none
  taskIntent : Option String := none
  targetDescription : Option String := none
  textToType : Option String := none
  appName : Option String := none
  scrollDirection : Option String := none
deriving DecidableEq, Repr

/-- Embedding of `_create_execution_plan` (`analyzer.py`). -/
def createExecutionPlan (ti : TaskInfo) : List ExecutionStep :=
  if ti.taskType.getD ("analyze") == "click" then
    [{ stepId := 1, actionType := "click",
       target := some (ti.targetDescription.getD ("")) }]
  else if ti.taskType.getD ("analyze") == "type" then
    [{ stepId := 1, actionType := "click",
       target := some (ti.targetDescription.getD ("输入框")) },
     { stepId := 2, actionType := "type", target := none,
       parameters := { text := some (ti.textToType.getD ("")) } }]
  else if ti.taskType.getD ("analyze") == "scroll" then
    [{ stepId := 1, actionType := "scroll", target := none,
       parameters := { direction := some (ti.scrollDirection.getD ("down")) } }]
  else if ti.taskType.getD ("analyze") == "open_app" then
    [{ stepId := 1, actionType := "open_app", target := none,
       parameters := { appName := some (ti.appName.getD ("")) } }]
  else
    [{ stepId := 1, actionType := "analyze", target := none }]

/-- Embedding of `command_analyzer_node` (`analyzer.py`).  Here `vlmInit` is the outcome of
constructing `Settings`/`VLMService`; the node afterwards reads
`task_info['task_type']` and `task_info['task_intent']` with bracket
access, so a parsed dictionary missing either key raises `KeyError`,
caught by the node's handler (the Python exception text quotes the key
name). -/
def commandAnalyzerNode (vlmInit : Except String Unit) (taskInfo : TaskInfo)
    (_s : AgentState) : Delta :=
  match vlmInit with
  | Except.error e => { errorMessage := some (some ("命令分析失败: " ++ e)) }
  | Except.ok _ =>
    match taskInfo.taskType, taskInfo.taskIntent with
    | none, _ => { errorMessage := some (some ("命令分析失败: task_type")) }
    | some _, none => { errorMessage := some (some ("命令分析失败: task_intent")) }
    | some tt, some intent =>
      { taskType := some tt, taskIntent := some intent,
        executionPlan := some (createExecutionPlan taskInfo) }

/-! ## Action execution (`executor.py`)

The GUI action service is abstract: each operation may raise
(`Except.error` carries the exception text).  Notably, `ActionService`
defines no `click`/`scroll_up`/`scroll_down`/`scroll_left`/`scroll_right`
methods, so those executor calls raise `AttributeError` at run time — the
abstract fallible call subsumes that.  `ActionService.start` is not
modelled as fallible: its only fallible step, `_get_screen_size`, catches
every error and substitutes a default size.  `time.sleep` in
`_execute_wait` is modelled as succeeding. -/

/-- Abstract action service, as consumed by `_execute_*`. -/
structure ActionSvc where
  click : Int → Int → Except String Unit
  typeText : String → Except String Unit
  scrollUp : Nat → Except String Unit
  scrollDown : Nat → Except String Unit
  scrollLeft : Nat → Except String Unit
  scrollRight : Nat → Except String Unit
  openApplication : String → Except String Bool

/-- Embedding of `_execute_click`: first (highest-confidence) element, click point is
`x + width // 2`, `y + height // 2` (Python floor division). -/
def executeClick (svc : ActionSvc) (targetElements : List UIElement) :
    Bool × Option String :=
  match targetElements with
  | [] => (false, some ("没有找到可点击的目标元素"))
  | e :: _ =>
    match e.coordX, e.coordY with
    | some x, some y =>
      let clickX := x + (e.coordW.getD 0).fdiv 2
      let clickY := y + (e.coordH.getD 0).fdiv 2
      (match svc.click clickX clickY with
        | Except.ok _ => (true, none)
        | Except.error m => (false, some ("点击操作失败: " ++ m)))
    | _, _ => (false, some ("目标元素坐标信息不完整"))

/-- Embedding of `_execute_type`. -/
def executeType (svc : ActionSvc) (params : StepParams) :
    Bool × Option String :=
  let text := params.text.getD ("")
  if text == "" then (false, some ("没有指定要输入的文本"))
  else
    match svc.typeText text with
    | Except.ok _ => (true, none)
    | Except.error m => (false, some ("输入操作失败: " ++ m))

/-- Embedding of `_execute_scroll`. -/
def executeScroll (svc : ActionSvc) (params : StepParams) :
    Bool × Option String :=
  let direction := params.direction.getD ("down")
  let amount := params.amount.getD 3
  let wrap : Except String Unit → Bool × Option String := fun r =>
    match r with
    | Except.ok _ => (true, none)
    | Except.error m => (false, some ("滚动操作失败: " ++ m))
  if direction == "up" then wrap (svc.scrollUp amount)
  else if direction == "down" then wrap (svc.scrollDown amount)
  else if direction == "left" then wrap (svc.scrollLeft amount)
  else if direction == "right" then wrap (svc.scrollRight amount)
  else (false, some ("不支持的滚动方向: " ++ direction))

/-- Embedding of `_execute_open_app`. -/
def executeOpenApp (svc : ActionSvc) (params : StepParams) :
    Bool × Option String :=
  let appName := params.appName.getD ("")
  if appName == "" then (false, some ("没有指定要打开的应用程序名称"))
  else
    match svc.openApplication appName with
    | Except.ok true => (true, none)
    | Except.ok false => (false, some ("无法打开应用程序: " ++ appName))
    | Except.error m => (false, some ("打开应用失败: " ++ m))

/-- Dispatch of `_execute_action` (`executor.py`): dispatch on `action_type`; every
exception — including the `ValueError` for an unsupported type — is caught
and recorded, so the function always produces an `ExecutionResult`, with
`error_message = None` exactly on success. -/
def dispatchAction (svc : ActionSvc) (actionType : String)
    (params : StepParams) (targetElements : List UIElement) :
    Bool × Option String :=
  if actionType == "click" then executeClick svc targetElements
  else if actionType == "type" then executeType svc params
  else if actionType == "scroll" then executeScroll svc params
  else if actionType == "open_app" then executeOpenApp svc params
  else if actionType == "wait" then (true, none)
  else if actionType == "analyze" then (true, none)
  else (false, some ("不支持的操作类型: " ++ actionType))

/-- Packaging of the dispatch outcome into the `ExecutionResult` dict built
at the end of `_execute_action`: on failure the error text comes from the
result dict's `error` key (default `操作失败`). -/
def executeAction (svc : ActionSvc) (actionType : String)
    (params : StepParams) (targetElements : List UIElement) (stepId : Nat) :
    ExecutionResult :=
  { stepId := stepId,
    success := (dispatchAction svc actionType params targetElements).1,
    errorMessage :=
      if (dispatchAction svc actionType params targetElements).1 then none
      else some
        ((dispatchAction svc actionType params targetElements).2.getD
          ("操作失败")) }

/-- Embedding of `_should_reanalyze_screen` (`executor.py`): false on a failed result,
else membership of the action type in the screen-changing set. -/
def shouldReanalyzeScreen (actionType : String) (res : ExecutionResult) :
    Bool :=
  res.success
    && (actionType == "click" || actionType == "open_app"
        || actionType == "scroll")

/-- Embedding of `action_executor_node` (`executor.py`).  A `None` or empty plan raises
`ValueError("没有可执行的计划")`, caught by the node's handler; past-end
cursor short-circuits to completion; otherwise exactly one result is
appended (the source mutates the state's list in place and also returns
it; with replacement-merge the effect is the append) and the cursor is
incremented by one. -/
def actionExecutorNode (svc : ActionSvc) (s : AgentState) : Delta :=
  match s.executionPlan with
  | none => { errorMessage := some (some ("操作执行失败: 没有可执行的计划")) }
  | some plan =>
    if plan.length = 0 then
      { errorMessage := some (some ("操作执行失败: 没有可执行的计划")) }
    else if plan.length ≤ s.currentStep then
      { isCompleted := some true, isSuccess := some true }
    else
      let step := plan.getD s.currentStep defaultStep
      let res := executeAction svc step.actionType step.parameters
        (s.targetElements.getD []) step.stepId
      let base : Delta :=
        { executionResults := some (s.executionResults ++ [res]),
          currentStep := some (s.currentStep + 1) }
      let d1 := if shouldReanalyzeScreen step.actionType res then
          { base with needReanalyze := some true }
        else base
      if res.success then d1
      else { d1 with errorMessage := some res.errorMessage }

/-! ## Validation and recovery (`validator.py`) -/

/-- Python's `repr` of a list of ints, as interpolated by
`f"部分步骤执行失败: 步骤 {failed_steps}"`. -/
def pyListRepr (l : List Nat) : String :=
  "[" ++ String.intercalate (", ") (l.map toString) ++ "]"

/-- The list `[i for i, result in enumerate(execution_results) if not
result.get('success', False)]`. -/
def failedIndices (results : List ExecutionResult) : List Nat :=
  (results.enum.filter (fun p => !(p.2.success))).map (fun p => p.1)

/-- Embedding of `_validate_completion` (`validator.py`). -/
def validateCompletion (results : List ExecutionResult) : Delta :=
  if results.all (fun r => r.success) then
    { isCompleted := some true, isSuccess := some true }
  else
    { isCompleted := some true, isSuccess := some false,
      errorMessage := some (some ("部分步骤执行失败: 步骤 "
        ++ pyListRepr (failedIndices results))) }

/-- Embedding of `_handle_error_validation` (`validator.py`). -/
def handleErrorValidation (s : AgentState) : Delta :=
  if s.maxRetries ≤ s.retryCount then
    { isCompleted := some true, isSuccess := some false }
  else {}

/-- Embedding of `result_validator_node` (`validator.py`).  With a `None` plan the
expression `len(execution_plan)` raises `TypeError`, caught by the node's
handler (the Python message quotes `NoneType`). -/
def resultValidatorNode (s : AgentState) : Delta :=
  if truthyErr s.errorMessage then handleErrorValidation s
  else
    match s.executionPlan with
    | none =>
      { errorMessage :=
          some (some ("结果验证失败: object of type NoneType has no len()")) }
    | some plan =>
      if plan.length ≤ s.currentStep then
        validateCompletion s.executionResults
      else
        match s.executionResults.getLast? with
        | none => {}
        | some last =>
          if last.success then {}
          else { errorMessage := some last.errorMessage }

/-- Python `any(keyword in error_lower for keyword in [...])`. -/
def keywordAny (errorLower : String) (keywords : List String) : Bool :=
  keywords.any (fun k => pyIn k errorLower)

/-- Embedding of `_analyze_error_and_get_strategy` (`validator.py`): keyword triage of
the lowered error text over three ordered categories, defaulting to
`reanalyze_screen`. -/
def analyzeErrorAndGetStrategy (errorMessage : Option String) : Strategy :=
  let msg := match errorMessage with
    | none => "未知错误"
    | some m => if m == "" then "未知错误" else m
  let errorLower := strLower msg
  if keywordAny errorLower ["目标元素", "坐标", "截图", "屏幕", "ui元素"] then
    Strategy.reanalyzeScreen
  else if keywordAny errorLower
      ["点击", "click", "输入", "type", "滚动", "scroll"] then
    Strategy.retryCurrentStep
  else if keywordAny errorLower ["应用", "app", "程序", "窗口"] then
    Strategy.reanalyzeScreen
  else Strategy.reanalyzeScreen

/-- Python `f"...{x}..."` on an optional string (`None` prints as
`None`). -/
def optStr : Option String → String
  | none => "None"
  | some m => m

/-- Dict update `{**debug_info, key: strategy}` restricted to the strategy
entries (later bindings shadow earlier ones). -/
def dbPut (db : List (String × Strategy)) (k : String) (v : Strategy) :
    List (String × Strategy) :=
  (k, v) :: db

/-- Dict lookup for a strategy entry. -/
def dbGet (db : List (String × Strategy)) (k : String) : Option Strategy :=
  (db.find? (fun p => p.1 == k)).map (fun p => p.2)

/-- The key `f"retry_{n}_strategy"`. -/
def retryStrategyKey (n : Nat) : String :=
  "retry_" ++ toString n ++ "_strategy"

/-- Embedding of `error_handler_node` (`validator.py`): at the retry limit it forces
failed termination; otherwise it increments `retry_count`, clears
`error_message` (the returned dict stores `None` under that key), records
the chosen strategy in `debug_info`, and for the `reanalyze_screen`
strategy sets `need_reanalyze` and rolls the cursor back one step,
`max(0, current_step - 1)` (truncated subtraction on `Nat`). -/
def errorHandlerNode (s : AgentState) : Delta :=
  if s.maxRetries ≤ s.retryCount then
    { isCompleted := some true, isSuccess := some false,
      errorMessage := some (some ("任务失败，已重试 " ++ toString s.retryCount
        ++ " 次: " ++ optStr s.errorMessage)) }
  else
    let strat := analyzeErrorAndGetStrategy s.errorMessage
    let n := s.retryCount + 1
    let base : Delta :=
      { retryCount := some n, errorMessage := some none,
        debugInfo := some (dbPut s.debugInfo (retryStrategyKey n) strat) }
    match strat with
    | Strategy.reanalyzeScreen =>
      { base with needReanalyze := some true,
                  currentStep := some (s.currentStep - 1) }
    | Strategy.retryCurrentStep => base
    | Strategy.modifyPlan => { base with needReanalyze := some true }

/-! ## Screen nodes (`screen.py`)

The capture service (`ScreenService.start` + `capture_screen`) is one
abstract fallible call returning the screenshot path; the VLM call
(`VLMService.start` + `analyze_image` + `_parse_screen_analysis` +
`_extract_ui_elements`) is one abstract fallible call returning the
structured `ScreenAnalysis`. -/

/-- Embedding of `screen_capture_node` (`screen.py`). -/
def screenCaptureNode (capture : Except String String) (_s : AgentState) :
    Delta :=
  match capture with
  | Except.ok path => { screenshotPath := some path }
  | Except.error e => { errorMessage := some (some ("屏幕捕获失败: " ++ e)) }

/-- Embedding of `screen_analyzer_node` (`screen.py`): a missing (or empty) screenshot
path raises `ValueError("没有可用的屏幕截图")`; collaborator errors and the
`AttributeError` from `_identify_target_elements` are caught by the node's
handler. -/
def screenAnalyzerNode (analyzeImage : Except String ScreenAnalysis)
    (s : AgentState) : Delta :=
  match s.screenshotPath with
  | none => { errorMessage := some (some ("屏幕分析失败: 没有可用的屏幕截图")) }
  | some p =>
    if p == "" then
      { errorMessage := some (some ("屏幕分析失败: 没有可用的屏幕截图")) }
    else
      match analyzeImage with
      | Except.error e => { errorMessage := some (some ("屏幕分析失败: " ++ e)) }
      | Except.ok sa =>
        match identifyTargetElements sa.uiElements s.executionPlan
            s.currentStep with
        | Except.error e =>
          { errorMessage := some (some ("屏幕分析失败: " ++ e)) }
        | Except.ok targets =>
          { screenAnalysis := some sa, uiElements := some sa.uiElements,
            targetElements := some targets }

/-! ## Conditional edges (`edges.py`)

Each edge function inspects the merged state and returns the next node
name.  Every Python-level exception inside an edge function is caught and
mapped to the function's fallback return value; the cases where such an
exception actually occurs (`None.get(...)`, `len(None)`) are modelled
explicitly below. -/

/-- Graph node names (`edges.py` constants; `endNode` is `"__end__"`). -/
inductive Node where
  | commandAnalyzer
  | screenCapture
  | screenAnalyzer
  | actionExecutor
  | resultValidator
  | errorHandler
  | endNode
deriving DecidableEq, Repr

/-- Embedding of `should_continue_after_analyzer`. -/
def shouldContinueAfterAnalyzer (s : AgentState) : Node :=
  if truthyErr s.errorMessage then Node.endNode
  else
    match s.executionPlan with
    | none => Node.endNode
    | some plan =>
      if plan.length = 0 then Node.endNode
      else if s.taskType == some ("unknown") then Node.endNode
      else Node.screenCapture

/-- Embedding of `should_continue_after_capture`.  When `screen_analysis` is `None`,
`screen_analysis.get('screenshot_path')` raises `AttributeError`, caught by
the edge's handler, which returns `error_handler`; a missing or empty
`screenshot_path` entry is falsy and also routes to `error_handler`. -/
def shouldContinueAfterCapture (s : AgentState) : Node :=
  if truthyErr s.errorMessage then Node.errorHandler
  else
    match s.screenAnalysis with
    | none => Node.errorHandler
    | some sa =>
      match sa.screenshotPath with
      | none => Node.errorHandler
      | some p => if p == "" then Node.errorHandler else Node.screenAnalyzer

/-- Embedding of `should_continue_after_screen_analysis` (same `None` handling as the
capture edge). -/
def shouldContinueAfterScreenAnalysis (s : AgentState) : Node :=
  if truthyErr s.errorMessage then Node.errorHandler
  else
    match s.screenAnalysis with
    | none => Node.errorHandler
    | some sa =>
      if (sa.targetElementsKey.getD []).length = 0 then Node.errorHandler
      else Node.actionExecutor

/-- Embedding of `should_continue_after_execution`. -/
def shouldContinueAfterExecution (s : AgentState) : Node :=
  if truthyErr s.errorMessage then Node.errorHandler
  else if s.executionResults.length = 0 then Node.errorHandler
  else Node.resultValidator

/-- Embedding of `should_continue_after_validation`.  With a `None` plan, `len(None)`
raises `TypeError`, caught by the edge's handler, which returns
`error_handler`.  Both the `need_reanalyze` branch and the fall-through
return `screen_capture`. -/
def shouldContinueAfterValidation (s : AgentState) : Node :=
  if s.isCompleted then Node.endNode
  else if truthyErr s.errorMessage then Node.errorHandler
  else
    match s.executionPlan with
    | none => Node.errorHandler
    | some plan =>
      if plan.length ≤ s.currentStep then Node.endNode
      else Node.screenCapture

/-- Embedding of `should_continue_after_error_handling`: terminal when completed or at
the retry limit; otherwise routes by the strategy stored under
`retry_{retry_count}_strategy`, defaulting to re-capture. -/
def shouldContinueAfterErrorHandling (s : AgentState) : Node :=
  if s.isCompleted then Node.endNode
  else if s.maxRetries ≤ s.retryCount then Node.endNode
  else
    match dbGet s.debugInfo (retryStrategyKey s.retryCount) with
    | some Strategy.reanalyzeScreen => Node.screenCapture
    | some Strategy.retryCurrentStep => Node.actionExecutor
    | some Strategy.modifyPlan => Node.screenCapture
    | none => Node.screenCapture

/-! ## The orchestration loop (`graph.py`)

`build_graph` wires the six nodes with the conditional edges, entry point
`command_analyzer`.  One transition of the compiled graph runs the node at
the current location, merges the returned dict, and evaluates that node's
edge function on the merged state.  Collaborator outcomes for the step are
drawn from an `Oracle`; a run supplies one oracle per step (`nextStep`),
so collaborators may behave differently on every invocation. -/

/-- Per-step collaborator outcomes. -/
structure Oracle where
  vlmInit : Except String Unit := Except.ok ()
  taskInfo : TaskInfo := {}
  capture : Except String String := Except.error ("")
  analyzeImage : Except String ScreenAnalysis := Except.error ("")
  action : ActionSvc

/-- One transition of the compiled graph: run the node at the current
location, merge its delta, follow its conditional edge (`__end__` is
absorbing). -/
def nextStep (o : Oracle) : Node × AgentState → Node × AgentState
  | (Node.commandAnalyzer, s) =>
    let s' := mergeState s (commandAnalyzerNode o.vlmInit o.taskInfo s)
    (shouldContinueAfterAnalyzer s', s')
  | (Node.screenCapture, s) =>
    let s' := mergeState s (screenCaptureNode o.capture s)
    (shouldContinueAfterCapture s', s')
  | (Node.screenAnalyzer, s) =>
    let s' := mergeState s (screenAnalyzerNode o.analyzeImage s)
    (shouldContinueAfterScreenAnalysis s', s')
  | (Node.actionExecutor, s) =>
    let s' := mergeState s (actionExecutorNode o.action s)
    (shouldContinueAfterExecution s', s')
  | (Node.resultValidator, s) =>
    let s' := mergeState s (resultValidatorNode s)
    (shouldContinueAfterValidation s', s')
  | (Node.errorHandler, s) =>
    let s' := mergeState s (errorHandlerNode s)
    (shouldContinueAfterErrorHandling s', s')
  | (Node.endNode, s) => (Node.endNode, s)

/-- Reachability by node transitions from the initial context at the
entry point, under arbitrary collaborator behaviour. -/
inductive Reach (userCommand : String) (maxRetries : Nat) :
    Node × AgentState → Prop where
  | init : Reach userCommand maxRetries
      (Node.commandAnalyzer, createInitialState userCommand maxRetries)
  | step (o : Oracle) (p : Node × AgentState)
      (h : Reach userCommand maxRetries p) :
      Reach userCommand maxRetries (nextStep o p)

/-- Iterated run under one fixed oracle (for concrete scenarios). -/
def runSteps (o : Oracle) (p : Node × AgentState) : Nat → Node × AgentState
  | 0 => p
  | n + 1 => runSteps o (nextStep o p) n

/-! ## Reachability invariant

In every reachable configuration the screen-analyzer, action-executor and
result-validator nodes are never entered at all:
`should_continue_after_capture` inspects
`screen_analysis['screenshot_path']`, but `screen_analysis` is only ever
written by `screen_analyzer_node` and no node stores a `screenshot_path`
key in it (the capture node stores the path at the top level of the
state), so the post-capture edge always routes to the error handler; and
every error message reaching the error handler (none at all, or a capture
failure, whose text always contains the keyword 屏幕) classifies as
`reanalyze_screen`, so recovery never routes onward to the executor. -/

/-- Fields that keep their initial value in every reachable configuration
outside `__end__`. -/
def BaseInv (s : AgentState) : Prop :=
  s.executionResults = [] ∧ s.currentStep = 0 ∧ s.screenAnalysis = none

/-- The only error shapes that can be pending at the error handler. -/
def ErrShape (s : AgentState) : Prop :=
  s.errorMessage = none
    ∨ ∃ e, s.errorMessage = some ("屏幕捕获失败: " ++ e)

/-- Location-indexed reachability invariant. -/
def GraphInv : Node × AgentState → Prop
  | (Node.commandAnalyzer, s) =>
    BaseInv s ∧ s.isCompleted = false ∧ s.errorMessage = none
      ∧ s.executionPlan = none
  | (Node.screenCapture, s) =>
    BaseInv s ∧ s.isCompleted = false ∧ s.errorMessage = none
  | (Node.screenAnalyzer, _) => False
  | (Node.actionExecutor, _) => False
  | (Node.resultValidator, _) => False
  | (Node.errorHandler, s) => BaseInv s ∧ s.isCompleted = false ∧ ErrShape s
  | (Node.endNode, s) => s.executionResults.length ≤ s.currentStep

/-! ## Concrete scenario data -/

/-- A finished two-step plan for the completion-validation scenario. -/
def planC4 : List ExecutionStep :=
  [{ stepId := 1, actionType := "click", target := some ("按钮") },
   { stepId := 2, actionType := "type", target := none,
     parameters := { text := some ("hello") } }]

/-- State at validation time: cursor past the plan end, second outcome
failed. -/
def stC4 : AgentState :=
  { userCommand := "输入文本", executionPlan := some planC4,
    currentStep := 2,
    executionResults :=
      [{ stepId := 1, success := true },
       { stepId := 2, success := false,
         errorMessage := some ("没有指定要输入的文本") }] }

/-- State at recovery time: a pending target-element error, one retry
already spent. -/
def stC6 : AgentState :=
  { userCommand := "点击按钮", currentStep := 1, retryCount := 1,
    executionResults := [{ stepId := 1, success := false }],
    errorMessage := some ("没有找到可点击的目标元素") }

/-- A plan whose single step is a click (used by the executor
scenarios). -/
def planC5 : List ExecutionStep :=
  [{ stepId := 1, actionType := "click", target := some ("提交") }]

/-- Executor-scenario state: click step pending, no target elements. -/
def stC5 : AgentState :=
  { userCommand := "点击提交", executionPlan := some planC5,
    targetElements := some [] }

/-- An action service whose every operation raises. -/
def failSvc : ActionSvc :=
  { click := fun _ _ => Except.error ("模拟操作失败"),
    typeText := fun _ => Except.error ("模拟操作失败"),
    scrollUp := fun _ => Except.error ("模拟操作失败"),
    scrollDown := fun _ => Except.error ("模拟操作失败"),
    scrollLeft := fun _ => Except.error ("模拟操作失败"),
    scrollRight := fun _ => Except.error ("模拟操作失败"),
    openApplication := fun _ => Except.error ("模拟操作失败") }

/-- Elements for the target-selection scenarios. -/
def elemX : UIElement :=
  { elementId := "e1", elementType := "text", text := some ("Submit"),
    confidence := mkRat 9 10 }

/-- A kind-compatible element with lower confidence. -/
def elemA : UIElement :=
  { elementId := "a", elementType := "button", text := some ("OK"),
    confidence := mkRat 3 4 }

/-- A kind-compatible element with higher confidence. -/
def elemB : UIElement :=
  { elementId := "b", elementType := "button", confidence := mkRat 9 10 }

/-- Single-step click plan with target description `submit`. -/
def planX : List ExecutionStep :=
  [{ stepId := 1, actionType := "click", target := some ("submit") }]

/-- A completed context that still carries a screen analysis holding a
screenshot path (as the post-capture edge expects to find one). -/
def stC9 : AgentState :=
  { userCommand := "", isCompleted := true,
    screenAnalysis := some { screenshotPath := some ("s.png") } }

/-- Fixed collaborator behaviour for the retry-bound scenario:
the intent analysis succeeds with the default (`analyze`) task info (the
hardcoded template string contains no JSON), the screen capture succeeds,
and every action-service operation fails — the Action Performer, were it
ever invoked, would produce only failed outcomes. -/
def scenOracle : Oracle :=
  { vlmInit := Except.ok (),
    taskInfo := { taskType := some ("analyze"),
                  taskIntent := some ("打开计算器") },
    capture := Except.ok ("screenshot.png"),
    analyzeImage := Except.error ("unused"),
    action := failSvc }

/-- The retry-bound run: initial state for the command `打开计算器` with
`max_retries = 3`, iterated under `scenOracle`. -/
def c2Trace (n : Nat) : Node × AgentState :=
  runSteps scenOracle
    (Node.commandAnalyzer, createInitialState ("打开计算器") 3) n

theorem listPre_append (n a b : List Char) (h : listPre n a = true) :
    listPre n (a ++ b) = true := by
  induction n generalizing a with
  | nil => simp [listPre]
  | cons c cs ih =>
    cases a with
    | nil => simp [listPre] at h
    | cons x xs =>
      simp only [listPre, Bool.and_eq_true] at h ⊢
      exact ⟨h.1, ih xs h.2⟩

theorem listContains_append_of_pre (n a b : List Char)
    (h : listPre n a = true) (ha : a ≠ []) :
    listContains n (a ++ b) = true := by
  cases a with
  | nil => exact absurd rfl ha
  | cons x xs =>
    simp only [List.cons_append, listContains, Bool.or_eq_true]
    exact Or.inl (listPre_append n (x :: xs) b h)

theorem mem_insertDesc {a e : UIElement} {l : List UIElement} :
    a ∈ insertDesc e l ↔ a = e ∨ a ∈ l := by
  induction l with
  | nil => simp [insertDesc]
  | cons x xs ih =>
    by_cases h : x.confidence ≤ e.confidence
    · simp [insertDesc, h]
    · simp [insertDesc, h, ih]
      tauto

theorem mem_sortDesc {a : UIElement} {l : List UIElement} :
    a ∈ sortDesc l ↔ a ∈ l := by
  induction l with
  | nil => simp [sortDesc]
  | cons x xs ih =>
    simp [sortDesc, mem_insertDesc, ih]

theorem confSortedDesc_insertDesc {e : UIElement} {l : List UIElement}
    (h : ConfSortedDesc l) : ConfSortedDesc (insertDesc e l) := by
  induction l with
  | nil =>
    simp [ConfSortedDesc, insertDesc]
  | cons x xs ih =>
    rcases List.pairwise_cons.mp h with ⟨hx, hxs⟩
    by_cases hc : x.confidence ≤ e.confidence
    · show ConfSortedDesc (if x.confidence ≤ e.confidence then
        e :: x :: xs else x :: insertDesc e xs)
      rw [if_pos hc]
      refine List.pairwise_cons.mpr ⟨?_, h⟩
      intro b hb
      rcases List.mem_cons.mp hb with hb | hb
      · exact hb ▸ hc
      · exact le_trans (hx b hb) hc
    · show ConfSortedDesc (if x.confidence ≤ e.confidence then
        e :: x :: xs else x :: insertDesc e xs)
      rw [if_neg hc]
      refine List.pairwise_cons.mpr ⟨?_, ih hxs⟩
      intro b hb
      rcases mem_insertDesc.mp hb with hb | hb
      · exact hb ▸ (le_of_lt (lt_of_not_le hc))
      · exact hx b hb

theorem confSortedDesc_sortDesc (l : List UIElement) :
    ConfSortedDesc (sortDesc l) := by
  induction l with
  | nil => simp [ConfSortedDesc, sortDesc]
  | cons x xs ih => exact confSortedDesc_insertDesc ih

/-! ## Helper lemmas -/

theorem strData_append (a b : String) : (a ++ b).data = a.data ++ b.data := by
  cases a
  cases b
  rfl

theorem createExecutionPlan_ne_nil (ti : TaskInfo) :
    createExecutionPlan ti ≠ [] := by
  unfold createExecutionPlan
  intro h
  split at h
  · simp at h
  · split at h
    · simp at h
    · split at h
      · simp at h
      · split at h
        · simp at h
        · simp at h

theorem dbGet_dbPut (db : List (String × Strategy)) (k : String)
    (v : Strategy) : dbGet (dbPut db k v) k = some v := by
  simp [dbGet, dbPut, List.find?]

theorem nextStep_endNode (o : Oracle) (s : AgentState) :
    nextStep o (Node.endNode, s) = (Node.endNode, s) := rfl

theorem runSteps_succ (o : Oracle) (p : Node × AgentState) (n : Nat) :
    runSteps o p (n + 1) = nextStep o (runSteps o p n) := by
  induction n generalizing p with
  | zero => rfl
  | succ m ih =>
    show runSteps o (nextStep o p) (m + 1) = _
    rw [ih (nextStep o p)]
    rfl

theorem analyze_none_strategy :
    analyzeErrorAndGetStrategy none = Strategy.reanalyzeScreen := by rfl

theorem analyze_capture_error_strategy (e : String) :
    analyzeErrorAndGetStrategy (some ("屏幕捕获失败: " ++ e))
      = Strategy.reanalyzeScreen := by
  have hne : (("屏幕捕获失败: " ++ e) == "") = false := by
    rw [beq_eq_false_iff_ne]
    intro h
    have hd : ("屏幕捕获失败: " ++ e).data = ("" : String).data := by rw [h]
    rw [strData_append] at hd
    exact absurd (List.append_eq_nil.mp hd).1 (by decide)
  have hlow : (strLower ("屏幕捕获失败: " ++ e)).data
      = ("屏幕捕获失败: ").data ++ (strLower e).data := by
    simp only [strLower, strData_append, List.map_append]
    rfl
  have hkw : keywordAny (strLower ("屏幕捕获失败: " ++ e))
      ["目标元素", "坐标", "截图", "屏幕", "ui元素"] = true := by
    apply List.any_eq_true.mpr
    refine ⟨("屏幕"), by simp, ?_⟩
    show listContains ("屏幕").data (strLower ("屏幕捕获失败: " ++ e)).data = true
    rw [hlow]
    exact listContains_append_of_pre _ _ _ (by decide) (by decide)
  unfold analyzeErrorAndGetStrategy
  simp only [hne, Bool.false_eq_true, if_false, hkw, if_true]

theorem inv_step (o : Oracle) (p : Node × AgentState) (h : GraphInv p) :
    GraphInv (nextStep o p) := by
  obtain ⟨loc, s⟩ := p
  cases loc
  case screenAnalyzer => exact h.elim
  case actionExecutor => exact h.elim
  case resultValidator => exact h.elim
  case endNode => exact h
  case commandAnalyzer =>
    obtain ⟨⟨hr, hc, hsa⟩, hcomp, herr, hplan⟩ := h
    simp only [nextStep]
    rcases hv : o.vlmInit with e | u
    · simp only [commandAnalyzerNode]
      by_cases ht : truthyErr (some ("命令分析失败: " ++ e)) = true
      · simp [shouldContinueAfterAnalyzer, mergeState, ht, GraphInv, hr, hc]
      · simp only [Bool.not_eq_true] at ht
        simp [shouldContinueAfterAnalyzer, mergeState, ht, GraphInv, hr, hc,
          hplan]
    · rcases htt : o.taskInfo.taskType with _ | tt
      · simp only [commandAnalyzerNode, htt]
        by_cases ht : truthyErr (some ("命令分析失败: task_type")) = true
        · simp [shouldContinueAfterAnalyzer, mergeState, ht, GraphInv, hr,
            hc]
        · simp only [Bool.not_eq_true] at ht
          simp [shouldContinueAfterAnalyzer, mergeState, ht, GraphInv, hr,
            hc, hplan]
      · rcases hti : o.taskInfo.taskIntent with _ | intent
        · simp only [commandAnalyzerNode, htt, hti]
          by_cases ht : truthyErr (some ("命令分析失败: task_intent")) = true
          · simp [shouldContinueAfterAnalyzer, mergeState, ht, GraphInv, hr,
              hc]
          · simp only [Bool.not_eq_true] at ht
            simp [shouldContinueAfterAnalyzer, mergeState, ht, GraphInv, hr,
              hc, hplan]
        · simp only [commandAnalyzerNode, htt, hti]
          have hlen : ¬ (createExecutionPlan o.taskInfo).length = 0 := by
            intro hl
            exact createExecutionPlan_ne_nil o.taskInfo
              (List.length_eq_zero.mp hl)
          by_cases hu : (some tt == some ("unknown")) = true
          · simp [shouldContinueAfterAnalyzer, mergeState, truthyErr, herr,
              GraphInv, hr, hc, hlen, hu]
          · simp only [Bool.not_eq_true] at hu
            simp [shouldContinueAfterAnalyzer, mergeState, truthyErr, herr,
              hlen, hu, GraphInv, BaseInv, hr, hc, hsa, hcomp]
  case screenCapture =>
    obtain ⟨⟨hr, hc, hsa⟩, hcomp, herr⟩ := h
    simp only [nextStep]
    rcases hcap : o.capture with e | path
    · simp only [screenCaptureNode]
      by_cases ht : truthyErr (some ("屏幕捕获失败: " ++ e)) = true
      · simp [shouldContinueAfterCapture, mergeState, ht, GraphInv, BaseInv,
          ErrShape, hr, hc, hsa, hcomp]
      · simp only [Bool.not_eq_true] at ht
        simp [shouldContinueAfterCapture, mergeState, ht, GraphInv, BaseInv,
          ErrShape, hr, hc, hsa, hcomp]
    · simp only [screenCaptureNode]
      simp [shouldContinueAfterCapture, mergeState, truthyErr, herr,
        GraphInv, BaseInv, ErrShape, hr, hc, hsa, hcomp]
  case errorHandler =>
    obtain ⟨⟨hr, hc, hsa⟩, hcomp, herrsh⟩ := h
    simp only [nextStep]
    by_cases hlim : s.maxRetries ≤ s.retryCount
    · simp [errorHandlerNode, hlim, shouldContinueAfterErrorHandling,
        mergeState, GraphInv, hr, hc]
    · have hstrat : analyzeErrorAndGetStrategy s.errorMessage
          = Strategy.reanalyzeScreen := by
        rcases herrsh with hnone | ⟨e, he⟩
        · rw [hnone]; exact analyze_none_strategy
        · rw [he]; exact analyze_capture_error_strategy e
      simp only [errorHandlerNode, hlim, if_false, hstrat]
      by_cases hlim2 : s.maxRetries ≤ s.retryCount + 1
      · simp [shouldContinueAfterErrorHandling, mergeState, hcomp, hlim2,
          GraphInv, hr, hc]
      · simp [shouldContinueAfterErrorHandling, mergeState, hcomp, hlim2,
          dbGet_dbPut, GraphInv, BaseInv, ErrShape, hr, hc, hsa]

theorem inv_reach (cmd : String) (mr : Nat) (p : Node × AgentState)
    (h : Reach cmd mr p) : GraphInv p := by
  induction h with
  | init =>
    exact ⟨⟨rfl, rfl, rfl⟩, rfl, rfl, rfl⟩
  | step o q _ ih => exact inv_step o q ih

/-! ## Claim theorems -/

/-- C3: in every context reachable from the initial state by node
transitions, the length of `execution_results` never exceeds
`current_step`.  (In fact, in every reachable context outside `__end__`
both are still at their initial values: the post-capture edge's
dependence on a `screenshot_path` key inside `screen_analysis` — a key no
node ever stores there — keeps the executor unreachable, so the
recovery rollback only ever fires at cursor 0 and the bound is never
stressed.) -/
theorem reachable_outcomes_le_cursor (cmd : String) (mr : Nat)
    (p : Node × AgentState) (h : Reach cmd mr p) :
    p.2.executionResults.length ≤ p.2.currentStep := by
  have hi := inv_reach cmd mr p h
  obtain ⟨loc, s⟩ := p
  cases loc
  case commandAnalyzer =>
    obtain ⟨⟨hr, hc, _⟩, _⟩ := hi
    simp [hr, hc]
  case screenCapture =>
    obtain ⟨⟨hr, hc, _⟩, _⟩ := hi
    simp [hr, hc]
  case screenAnalyzer => exact hi.elim
  case actionExecutor => exact hi.elim
  case resultValidator => exact hi.elim
  case errorHandler =>
    obtain ⟨⟨hr, hc, _⟩, _⟩ := hi
    simp [hr, hc]
  case endNode => exact hi

/-- C3 witness: the bound holds at the initial configuration. -/
theorem reachable_outcomes_le_cursor_witness :
    (Node.commandAnalyzer,
      createInitialState ("打开计算器") 3).2.executionResults.length ≤
    (Node.commandAnalyzer, createInitialState ("打开计算器") 3).2.currentStep :=
  reachable_outcomes_le_cursor ("打开计算器") 3 _ Reach.init

/-- C10: for every parsed task-info dictionary — whatever its
`task_type`, including unrecognized ones — `_create_execution_plan`
produces at least one step; consequently, after an error-free analysis
whose plan was so produced (and whose task type is not `unknown`), the
post-analyzer transition goes to screen capture, never to `__end__` via
the empty-plan branch. -/
theorem plan_nonempty_analyzer (ti : TaskInfo) (s : AgentState)
    (h1 : truthyErr s.errorMessage = false)
    (h2 : s.executionPlan = some (createExecutionPlan ti))
    (h3 : s.taskType ≠ some ("unknown")) :
    1 ≤ (createExecutionPlan ti).length ∧
      shouldContinueAfterAnalyzer s = Node.screenCapture := by
  have hne := createExecutionPlan_ne_nil ti
  have hlen : ¬ (createExecutionPlan ti).length = 0 := by
    intro hl
    exact hne (List.length_eq_zero.mp hl)
  constructor
  · exact Nat.one_le_iff_ne_zero.mpr hlen
  · have hu : (s.taskType == some ("unknown")) = false :=
      beq_eq_false_iff_ne.mpr h3
    simp [shouldContinueAfterAnalyzer, h1, h2, hlen, hu]

/-- C10 witness: the default (`analyze`) task info at an error-free
post-analysis state. -/
theorem plan_nonempty_analyzer_witness :
    1 ≤ (createExecutionPlan {}).length ∧
      shouldContinueAfterAnalyzer
        { userCommand := "", taskType := some ("analyze"),
          executionPlan := some (createExecutionPlan {}) }
        = Node.screenCapture :=
  plan_nonempty_analyzer {}
    { userCommand := "", taskType := some ("analyze"),
      executionPlan := some (createExecutionPlan {}) }
    rfl rfl (by decide)

/-- C4: when the validator runs with no error set and the cursor at or
past the end of the plan, it declares completion with `is_success` the
conjunction of the recorded outcomes' successes, and on any failure also
sets a summary error message listing the failed step indices. -/
theorem validator_structural_completion (s : AgentState)
    (plan : List ExecutionStep) (h1 : s.errorMessage = none)
    (h2 : s.executionPlan = some plan) (h3 : plan.length ≤ s.currentStep) :
    (resultValidatorNode s).isCompleted = some true ∧
    (resultValidatorNode s).isSuccess
      = some (s.executionResults.all (fun r => r.success)) ∧
    (s.executionResults.all (fun r => r.success) = true →
      (resultValidatorNode s).errorMessage = none) ∧
    (s.executionResults.all (fun r => r.success) = false →
      (resultValidatorNode s).errorMessage
        = some (some ("部分步骤执行失败: 步骤 "
            ++ pyListRepr (failedIndices s.executionResults)))) := by
  have ht : truthyErr s.errorMessage = false := by rw [h1]; rfl
  simp only [resultValidatorNode, ht, Bool.false_eq_true, if_false, h2]
  rw [if_pos h3]
  unfold validateCompletion
  by_cases hall : s.executionResults.all (fun r => r.success) = true
  · simp [hall]
  · simp only [Bool.not_eq_true] at hall
    simp [hall]

/-- C4 witness: a finished two-step plan with one failed outcome. -/
theorem validator_structural_completion_witness :
    (resultValidatorNode stC4).isCompleted = some true ∧
    (resultValidatorNode stC4).isSuccess
      = some (stC4.executionResults.all (fun r => r.success)) ∧
    (stC4.executionResults.all (fun r => r.success) = true →
      (resultValidatorNode stC4).errorMessage = none) ∧
    (stC4.executionResults.all (fun r => r.success) = false →
      (resultValidatorNode stC4).errorMessage
        = some (some ("部分步骤执行失败: 步骤 "
            ++ pyListRepr (failedIndices stC4.executionResults)))) :=
  validator_structural_completion stC4 planC4 rfl rfl (by decide)

/-- C6: the recovery handler, on a state with an error set, forces failed
termination at the retry limit, and below the limit increments the retry
count by exactly one, clears the error, and rolls the cursor back by one
(truncated at zero, mirroring `max(0, current_step - 1)`) exactly for the
`reanalyze_screen` strategy, leaving the cursor untouched for
`retry_current_step`. -/
theorem error_handler_step (s : AgentState) (h : s.errorMessage ≠ none) :
    (s.maxRetries ≤ s.retryCount →
      (errorHandlerNode s).isCompleted = some true ∧
      (errorHandlerNode s).isSuccess = some false) ∧
    (s.retryCount < s.maxRetries →
      (errorHandlerNode s).retryCount = some (s.retryCount + 1) ∧
      (errorHandlerNode s).errorMessage = some none ∧
      (analyzeErrorAndGetStrategy s.errorMessage = Strategy.reanalyzeScreen →
        (errorHandlerNode s).currentStep = some (s.currentStep - 1)) ∧
      (analyzeErrorAndGetStrategy s.errorMessage
          = Strategy.retryCurrentStep →
        (errorHandlerNode s).currentStep = none)) := by
  constructor
  · intro hlim
    simp [errorHandlerNode, hlim]
  · intro hlt
    have hlim : ¬ s.maxRetries ≤ s.retryCount := Nat.not_le.mpr hlt
    simp only [errorHandlerNode, hlim, if_false]
    rcases hstrat : analyzeErrorAndGetStrategy s.errorMessage with _ | _ | _
    all_goals simp [hstrat]

/-- C6 witness: a target-element error below the retry limit
(classified `reanalyze_screen`). -/
theorem error_handler_step_witness :
    (stC6.maxRetries ≤ stC6.retryCount →
      (errorHandlerNode stC6).isCompleted = some true ∧
      (errorHandlerNode stC6).isSuccess = some false) ∧
    (stC6.retryCount < stC6.maxRetries →
      (errorHandlerNode stC6).retryCount = some (stC6.retryCount + 1) ∧
      (errorHandlerNode stC6).errorMessage = some none ∧
      (analyzeErrorAndGetStrategy stC6.errorMessage
          = Strategy.reanalyzeScreen →
        (errorHandlerNode stC6).currentStep = some (stC6.currentStep - 1)) ∧
      (analyzeErrorAndGetStrategy stC6.errorMessage
          = Strategy.retryCurrentStep →
        (errorHandlerNode stC6).currentStep = none)) :=
  error_handler_step stC6 (by decide)

/-- C7: for every collaborator behaviour, on a non-empty plan with the
cursor in range the executor node appends exactly one outcome, increments
the cursor by exactly one regardless of success, captures any failure
text into the outcome's `error_message` (and mirrors it into the state's
`error_message`), and reports no error on success — it never throws
across its boundary (the embedding is a total function; every exception
in `_execute_action` is converted to a failed result). -/
theorem action_executor_appends_one (svc : ActionSvc) (s : AgentState)
    (plan : List ExecutionStep) (h1 : s.executionPlan = some plan)
    (h2 : 0 < plan.length) (h3 : s.currentStep < plan.length) :
    (actionExecutorNode svc s).executionResults
      = some (s.executionResults ++
          [executeAction svc (plan.getD s.currentStep defaultStep).actionType
            (plan.getD s.currentStep defaultStep).parameters
            (s.targetElements.getD [])
            (plan.getD s.currentStep defaultStep).stepId]) ∧
    (actionExecutorNode svc s).currentStep = some (s.currentStep + 1) ∧
    ((executeAction svc (plan.getD s.currentStep defaultStep).actionType
        (plan.getD s.currentStep defaultStep).parameters
        (s.targetElements.getD [])
        (plan.getD s.currentStep defaultStep).stepId).success = false →
      ∃ m,
        (executeAction svc (plan.getD s.currentStep defaultStep).actionType
          (plan.getD s.currentStep defaultStep).parameters
          (s.targetElements.getD [])
          (plan.getD s.currentStep defaultStep).stepId).errorMessage
            = some m ∧
        (actionExecutorNode svc s).errorMessage = some (some m)) ∧
    ((executeAction svc (plan.getD s.currentStep defaultStep).actionType
        (plan.getD s.currentStep defaultStep).parameters
        (s.targetElements.getD [])
        (plan.getD s.currentStep defaultStep).stepId).success = true →
      (actionExecutorNode svc s).errorMessage = none) := by
  have hne0 : ¬ plan.length = 0 := by omega
  have hle : ¬ plan.length ≤ s.currentStep := by omega
  simp only [actionExecutorNode, h1, hne0, hle, if_false]
  refine ⟨?_, ?_, ?_, ?_⟩
  · split
    · split <;> rfl
    · split <;> rfl
  · split
    · split <;> rfl
    · split <;> rfl
  · intro hf
    rw [if_neg (by rw [hf]; exact Bool.false_ne_true)]
    have hmsg : (executeAction svc
        (plan.getD s.currentStep defaultStep).actionType
        (plan.getD s.currentStep defaultStep).parameters
        (s.targetElements.getD [])
        (plan.getD s.currentStep defaultStep).stepId).errorMessage
          = some ((dispatchAction svc
              (plan.getD s.currentStep defaultStep).actionType
              (plan.getD s.currentStep defaultStep).parameters
              (s.targetElements.getD [])).2.getD ("操作失败")) := by
      simp only [executeAction] at hf ⊢
      rw [if_neg (by rw [hf]; exact Bool.false_ne_true)]
    exact ⟨_, hmsg, by rw [hmsg]⟩
  · intro htrue
    rw [if_pos htrue]
    split <;> rfl

/-- C7 witness: a click step with no target elements still yields exactly
one appended (failed) outcome and a cursor increment. -/
theorem action_executor_appends_one_witness :
    (actionExecutorNode failSvc stC5).executionResults
      = some (stC5.executionResults ++
          [executeAction failSvc
            (planC5.getD stC5.currentStep defaultStep).actionType
            (planC5.getD stC5.currentStep defaultStep).parameters
            (stC5.targetElements.getD [])
            (planC5.getD stC5.currentStep defaultStep).stepId]) ∧
    (actionExecutorNode failSvc stC5).currentStep
      = some (stC5.currentStep + 1) ∧
    ((executeAction failSvc
        (planC5.getD stC5.currentStep defaultStep).actionType
        (planC5.getD stC5.currentStep defaultStep).parameters
        (stC5.targetElements.getD [])
        (planC5.getD stC5.currentStep defaultStep).stepId).success = false →
      ∃ m,
        (executeAction failSvc
          (planC5.getD stC5.currentStep defaultStep).actionType
          (planC5.getD stC5.currentStep defaultStep).parameters
          (stC5.targetElements.getD [])
          (planC5.getD stC5.currentStep defaultStep).stepId).errorMessage
            = some m ∧
        (actionExecutorNode failSvc stC5).errorMessage = some (some m)) ∧
    ((executeAction failSvc
        (planC5.getD stC5.currentStep defaultStep).actionType
        (planC5.getD stC5.currentStep defaultStep).parameters
        (stC5.targetElements.getD [])
        (planC5.getD stC5.currentStep defaultStep).stepId).success = true →
      (actionExecutorNode failSvc stC5).errorMessage = none) :=
  action_executor_appends_one failSvc stC5 planC5 rfl (by decide) (by decide)

/-- C5 counterexample: a `click` invocation whose outcome fails (no
target elements) does NOT set `need_reanalyze` — the claim's
unconditional "click sets needsReobservation" is false;
`_should_reanalyze_screen` first requires a successful result. -/
theorem need_reanalyze_counterexample :
    (planC5.getD 0 defaultStep).actionType = "click" ∧
    (actionExecutorNode failSvc stC5).needReanalyze = none ∧
    (actionExecutorNode failSvc stC5).errorMessage
      = some (some ("没有找到可点击的目标元素")) := by
  refine ⟨rfl, rfl, rfl⟩

/-- C5 amended: the executor's delta sets `need_reanalyze = true` exactly
when the outcome succeeded AND the step's action type is `click`,
`open_app` or `scroll`; it never stores `false` there (for `type`, `wait`,
`analyze`, and for any failed outcome, the key is simply absent). -/
theorem need_reanalyze_amended (svc : ActionSvc) (s : AgentState)
    (plan : List ExecutionStep) (h1 : s.executionPlan = some plan)
    (h2 : 0 < plan.length) (h3 : s.currentStep < plan.length) :
    ((actionExecutorNode svc s).needReanalyze = some true ↔
      ((executeAction svc (plan.getD s.currentStep defaultStep).actionType
          (plan.getD s.currentStep defaultStep).parameters
          (s.targetElements.getD [])
          (plan.getD s.currentStep defaultStep).stepId).success = true ∧
        ((plan.getD s.currentStep defaultStep).actionType = "click" ∨
         (plan.getD s.currentStep defaultStep).actionType = "open_app" ∨
         (plan.getD s.currentStep defaultStep).actionType = "scroll"))) ∧
    (actionExecutorNode svc s).needReanalyze ≠ some false := by
  have hne0 : ¬ plan.length = 0 := by omega
  have hle : ¬ plan.length ≤ s.currentStep := by omega
  have key : (actionExecutorNode svc s).needReanalyze
      = (if shouldReanalyzeScreen (plan.getD s.currentStep defaultStep).actionType
            (executeAction svc (plan.getD s.currentStep defaultStep).actionType
              (plan.getD s.currentStep defaultStep).parameters
              (s.targetElements.getD [])
              (plan.getD s.currentStep defaultStep).stepId)
          then some true else none) := by
    simp only [actionExecutorNode, h1, hne0, hle, if_false]
    by_cases hsucc : (executeAction svc
        (plan.getD s.currentStep defaultStep).actionType
        (plan.getD s.currentStep defaultStep).parameters
        (s.targetElements.getD [])
        (plan.getD s.currentStep defaultStep).stepId).success = true
      <;> by_cases hsr : shouldReanalyzeScreen
          (plan.getD s.currentStep defaultStep).actionType
          (executeAction svc (plan.getD s.currentStep defaultStep).actionType
            (plan.getD s.currentStep defaultStep).parameters
            (s.targetElements.getD [])
            (plan.getD s.currentStep defaultStep).stepId) = true
      <;> simp only [hsucc, hsr]
      <;> simp
  rw [key]
  constructor
  · by_cases hsr : shouldReanalyzeScreen
        (plan.getD s.currentStep defaultStep).actionType
        (executeAction svc (plan.getD s.currentStep defaultStep).actionType
          (plan.getD s.currentStep defaultStep).parameters
          (s.targetElements.getD [])
          (plan.getD s.currentStep defaultStep).stepId) = true
    · rw [if_pos hsr]
      simp only [shouldReanalyzeScreen, Bool.and_eq_true, Bool.or_eq_true,
        beq_iff_eq] at hsr
      exact ⟨fun _ => by tauto, fun _ => rfl⟩
    · rw [if_neg hsr]
      constructor
      · intro hcon
        exact absurd hcon (by simp)
      · intro hcon
        apply absurd _ hsr
        simp only [shouldReanalyzeScreen, Bool.and_eq_true, Bool.or_eq_true,
          beq_iff_eq]
        tauto
  · by_cases hsr : shouldReanalyzeScreen
        (plan.getD s.currentStep defaultStep).actionType
        (executeAction svc (plan.getD s.currentStep defaultStep).actionType
          (plan.getD s.currentStep defaultStep).parameters
          (s.targetElements.getD [])
          (plan.getD s.currentStep defaultStep).stepId) = true
    · rw [if_pos hsr]
      simp
    · rw [if_neg hsr]
      simp

/-- C5 amended witness: the failed click sets no `need_reanalyze`. -/
theorem need_reanalyze_amended_witness :
    ((actionExecutorNode failSvc stC5).needReanalyze = some true ↔
      ((executeAction failSvc
          (planC5.getD stC5.currentStep defaultStep).actionType
          (planC5.getD stC5.currentStep defaultStep).parameters
          (stC5.targetElements.getD [])
          (planC5.getD stC5.currentStep defaultStep).stepId).success = true ∧
        ((planC5.getD stC5.currentStep defaultStep).actionType = "click" ∨
         (planC5.getD stC5.currentStep defaultStep).actionType = "open_app" ∨
         (planC5.getD stC5.currentStep defaultStep).actionType = "scroll"))) ∧
    (actionExecutorNode failSvc stC5).needReanalyze ≠ some false :=
  need_reanalyze_amended failSvc stC5 planC5 rfl (by decide) (by decide)

/-- Confidence bound extracted from the selection predicate. -/
theorem conf_of_isTargetElem (a d : String) (e : UIElement)
    (h : isTargetElem a d e = true) : mkRat 7 10 < e.confidence := by
  simp only [isTargetElem, Bool.and_eq_true, decide_eq_true_eq] at h
  exact h.2

/-- C8: whatever the element list and state, the produced
`target_elements` list is sorted by descending confidence and contains no
element with confidence at or below 0.7. -/
theorem target_elements_sorted_filtered (ui : List UIElement)
    (planOpt : Option (List ExecutionStep)) (cursor : Nat)
    (res : List UIElement)
    (h : identifyTargetElements ui planOpt cursor = Except.ok res) :
    ConfSortedDesc res ∧ ∀ e ∈ res, mkRat 7 10 < e.confidence := by
  rcases planOpt with _ | plan
  · have hres : ([] : List UIElement) = res := by
      have : Except.ok ([] : List UIElement) = Except.ok res := h
      simpa using this
    rw [← hres]
    exact ⟨List.Pairwise.nil, by simp⟩
  · simp only [identifyTargetElements] at h
    by_cases hg : plan.length = 0 ∨ plan.length ≤ cursor
    · rw [if_pos hg] at h
      have hres : ([] : List UIElement) = res := by simpa using h
      rw [← hres]
      exact ⟨List.Pairwise.nil, by simp⟩
    · rw [if_neg hg] at h
      rcases htg : (plan.getD cursor defaultStep).target with _ | desc
      · rw [htg] at h
        simp at h
      · rw [htg] at h
        have hres : sortDesc (ui.filter (isTargetElem
            (plan.getD cursor defaultStep).actionType desc)) = res := by
          simpa using h
        rw [← hres]
        refine ⟨confSortedDesc_sortDesc _, ?_⟩
        intro e he
        have hm := mem_sortDesc.mp he
        have hf := List.mem_filter.mp hm
        exact conf_of_isTargetElem _ _ _ hf.2

/-- C8 witness: out-of-order input comes back sorted and filtered. -/
theorem target_elements_sorted_filtered_witness :
    ConfSortedDesc [elemB, elemA] ∧
      ∀ e ∈ [elemB, elemA], mkRat 7 10 < e.confidence :=
  target_elements_sorted_filtered [elemA, elemB] (some planX) 0
    [elemB, elemA] (by rfl)

/-- C1 counterexample: under a `click` step targeting `submit`, the
element of kind `text` — not kind-compatible with click — is nevertheless
selected, because its text contains the target description: the source
combines the two criteria with OR, not AND. -/
theorem target_selection_kind_counterexample :
    identifyTargetElements [elemX] (some planX) 0 = Except.ok [elemX] ∧
    elemX.elementType ≠ "button" ∧ elemX.elementType ≠ "link" ∧
    elemX.elementType ≠ "menu_item" := by
  refine ⟨by rfl, by decide, by decide, by decide⟩

/-- C1 amended: an element is selected into `target_elements` only if
(kind-compatible with the step's action type — `click` admits
button/link/menu_item, `type` admits input/textarea/textfield — OR the
step's non-empty target description occurs case-insensitively in the
element's non-empty text) AND its confidence exceeds 0.7; moreover
selected elements come from the observed list. -/
theorem target_selection_amended (ui : List UIElement)
    (plan : List ExecutionStep) (cursor : Nat) (desc : String)
    (res : List UIElement) (e : UIElement)
    (hc : cursor < plan.length)
    (ht : (plan.getD cursor defaultStep).target = some desc)
    (h : identifyTargetElements ui (some plan) cursor = Except.ok res)
    (he : e ∈ res) :
    e ∈ ui ∧ mkRat 7 10 < e.confidence ∧
      (((plan.getD cursor defaultStep).actionType = "click" ∧
          (e.elementType = "button" ∨ e.elementType = "link"
            ∨ e.elementType = "menu_item")) ∨
       ((plan.getD cursor defaultStep).actionType = "type" ∧
          (e.elementType = "input" ∨ e.elementType = "textarea"
            ∨ e.elementType = "textfield")) ∨
       (desc ≠ "" ∧ ∃ t, e.text = some t ∧ t ≠ "" ∧
          pyIn (strLower desc) (strLower t) = true)) := by
  simp only [identifyTargetElements] at h
  have hg : ¬ (plan.length = 0 ∨ plan.length ≤ cursor) := by omega
  rw [if_neg hg, ht] at h
  have hres : sortDesc (ui.filter (isTargetElem
      (plan.getD cursor defaultStep).actionType desc)) = res := by
    simpa using h
  rw [← hres] at he
  have hm := mem_sortDesc.mp he
  have hf := List.mem_filter.mp hm
  refine ⟨hf.1, conf_of_isTargetElem _ _ _ hf.2, ?_⟩
  have hp := hf.2
  rcases het : e.text with _ | t
  · simp only [isTargetElem, het, Bool.or_eq_true, Bool.and_eq_true,
      beq_iff_eq, decide_eq_true_eq] at hp
    rcases hp.1 with (⟨ha, hk⟩ | ⟨ha, hk⟩) | hbad
    · exact Or.inl ⟨ha, by tauto⟩
    · exact Or.inr (Or.inl ⟨ha, by tauto⟩)
    · exact absurd hbad.2 (by simp)
  · simp only [isTargetElem, het, Bool.or_eq_true, Bool.and_eq_true,
      Bool.not_eq_true', beq_iff_eq, decide_eq_true_eq,
      bne_iff_ne] at hp
    rcases hp.1 with (⟨ha, hk⟩ | ⟨ha, hk⟩) | htext
    · exact Or.inl ⟨ha, by tauto⟩
    · exact Or.inr (Or.inl ⟨ha, by tauto⟩)
    · refine Or.inr (Or.inr ⟨?_, t, rfl, ?_, ?_⟩)
      · intro hdesc
        have := htext.1
        simp [hdesc] at this
      · intro htnil
        have := htext.2.1
        simp [htnil] at this
      · exact htext.2.2

/-- C1 amended witness: the text-matched element satisfies the amended
criterion. -/
theorem target_selection_amended_witness :
    elemX ∈ [elemX] ∧ mkRat 7 10 < elemX.confidence ∧
      (((planX.getD 0 defaultStep).actionType = "click" ∧
          (elemX.elementType = "button" ∨ elemX.elementType = "link"
            ∨ elemX.elementType = "menu_item")) ∨
       ((planX.getD 0 defaultStep).actionType = "type" ∧
          (elemX.elementType = "input" ∨ elemX.elementType = "textarea"
            ∨ elemX.elementType = "textfield")) ∨
       ("submit" ≠ "" ∧ ∃ t, elemX.text = some t ∧ t ≠ "" ∧
          pyIn (strLower ("submit")) (strLower t) = true)) :=
  target_selection_amended [elemX] planX 0 ("submit") [elemX] elemX
    (by decide) (by rfl) (by rfl) (by simp)

/-- C9 counterexample: with `is_completed = true`, the post-capture
transition function still routes to the screen analyzer — only the
post-validation and post-error-handling functions inspect the completion
flag, so "every transition-table function routes to End" is false. -/
theorem completed_routing_counterexample :
    stC9.isCompleted = true ∧
    shouldContinueAfterCapture stC9 = Node.screenAnalyzer ∧
    Node.screenAnalyzer ≠ Node.endNode := by
  refine ⟨rfl, rfl, by decide⟩

/-- C9 amended: `completed = true` is terminal for the two transition
functions that can observe it — the post-validation and
post-error-handling edges both route to `__end__` on a completed context
(and edge functions are pure: they only return a node name, mutating no
state field).  The other four edge functions never inspect the flag. -/
theorem completed_routing_amended (s : AgentState)
    (h : s.isCompleted = true) :
    shouldContinueAfterValidation s = Node.endNode ∧
    shouldContinueAfterErrorHandling s = Node.endNode := by
  constructor
  · simp [shouldContinueAfterValidation, h]
  · simp [shouldContinueAfterErrorHandling, h]

/-- C9 amended witness. -/
theorem completed_routing_amended_witness :
    shouldContinueAfterValidation stC9 = Node.endNode ∧
    shouldContinueAfterErrorHandling stC9 = Node.endNode :=
  completed_routing_amended stC9 rfl

/-- C2 counterexample: in the always-failing scenario with
`max_retries = 3` the session never reaches `completed = true`: after 7
transitions it sits at `__end__` with `retry_count = 3` and
`is_completed = false`, and that configuration is a fixed point of the
transition step, so no later state differs.  The claimed final state
`completed = true ∧ succeeded = false` is never assumed: once the third
recovery increments the counter to the limit, the post-error-handling
edge ends the session directly, and the recovery handler's terminating
branch (the only writer of that final state) never runs. -/
theorem retry_bound_counterexample :
    ((List.range 8).all (fun n => !(c2Trace n).2.isCompleted)) = true ∧
    nextStep scenOracle (c2Trace 7) = c2Trace 7 ∧
    (c2Trace 7).1 = Node.endNode ∧
    (c2Trace 7).2.retryCount = 3 := by
  refine ⟨by rfl, by rfl, by rfl, by rfl⟩

/-- C2 amended: with `retryLimit = 3` and an always-failing Action
Performer the session terminates at `__end__` after exactly 3 recovery
cycles (`retry_count = 3`), with `completed = false` and
`succeeded = false`; the terminal configuration is reached at step 7 and
absorbs, and the retry count never exceeds 3, so a 4th recovery retry is
never attempted. -/
theorem retry_bound_amended :
    (c2Trace 7).1 = Node.endNode ∧
    (c2Trace 7).2.retryCount = 3 ∧
    (c2Trace 7).2.isCompleted = false ∧
    (c2Trace 7).2.isSuccess = false ∧
    (∀ n, c2Trace (7 + n) = c2Trace 7) ∧
    (∀ n, (c2Trace n).2.retryCount ≤ 3) := by
  have habs : ∀ n, c2Trace (7 + n) = c2Trace 7 := by
    intro n
    induction n with
    | zero => rfl
    | succ m ih =>
      show c2Trace ((7 + m) + 1) = c2Trace 7
      show runSteps scenOracle
        (Node.commandAnalyzer, createInitialState ("打开计算器") 3)
        ((7 + m) + 1) = c2Trace 7
      rw [runSteps_succ]
      show nextStep scenOracle (c2Trace (7 + m)) = c2Trace 7
      rw [ih]
      rfl
  refine ⟨rfl, rfl, rfl, rfl, habs, ?_⟩
  intro n
  by_cases h : 7 ≤ n
  · obtain ⟨k, rfl⟩ := Nat.exists_eq_add_of_le h
    rw [habs k]
    decide
  · have h6 : n ≤ 6 := by omega
    interval_cases n <;> decide
